import Mathlib

/-!
# Verification of the `pomo` shared Pomodoro timer

A shallow embedding of the timer engine (`src/lib/timerStore.ts`) and of the
relevant parts of the replication layer (`src/lib/p2pStore.ts`), together with
theorems settling the specification claims about them.

JavaScript numbers that the program only ever adds, subtracts and compares are
modelled as `Int` (the code performs no validation, so negative values are
representable and must be modelled).
-/

set_option autoImplicit false

namespace Pomo

/-- The three timer phases (`TimerPhase` enum in `timerStore.ts`). -/
inductive TimerPhase
  | Work
  | ShortBreak
  | LongBreak
deriving DecidableEq, Repr, Inhabited

/-- The timer state structure (`TimerState` interface in `timerStore.ts`). -/
structure TimerState where
  phase : TimerPhase
  timeLeft : Int
  isRunning : Bool
  workDuration : Int
  shortBreakDuration : Int
  longBreakDuration : Int
  longBreakInterval : Int
  cycleCount : Int
  justFinished : Bool
deriving DecidableEq, Repr, Inhabited

def DEFAULT_WORK_DURATION : Int := 25 * 60

def DEFAULT_SHORT_BREAK_DURATION : Int := 5 * 60

def DEFAULT_LONG_BREAK_DURATION : Int := 15 * 60

def DEFAULT_LONG_BREAK_INTERVAL : Int := 4

/-- The initial store value (`initialState` in `timerStore.ts`). -/
def initialState : TimerState :=
  { phase := TimerPhase.Work
    timeLeft := DEFAULT_WORK_DURATION
    isRunning := false
    workDuration := DEFAULT_WORK_DURATION
    shortBreakDuration := DEFAULT_SHORT_BREAK_DURATION
    longBreakDuration := DEFAULT_LONG_BREAK_DURATION
    longBreakInterval := DEFAULT_LONG_BREAK_INTERVAL
    cycleCount := 0
    justFinished := false }

/-- `tick` from `timerStore.ts`: the update function passed to
`timerState.update`.  Decrements the timer by one second and handles phase
transitions, including the auto-start policy for the new phase. -/
def tick (state : TimerState) : TimerState :=
  if state.isRunning = false ∨ state.timeLeft ≤ 0 then
    -- Ensure flag is false if not running or already 0
    if state.justFinished = true then { state with justFinished := false }
    else state
  else
    let newTimeLeft := state.timeLeft - 1
    if newTimeLeft ≤ 0 then
      -- Timer finished, transition to next phase
      let (nextPhase, nextTimeLeft, nextCycleCount) :=
        if state.phase = TimerPhase.Work then
          let c := state.cycleCount + 1
          if c ≥ state.longBreakInterval then
            (TimerPhase.LongBreak, state.longBreakDuration, (0 : Int))
          else
            (TimerPhase.ShortBreak, state.shortBreakDuration, c)
        else
          (TimerPhase.Work, state.workDuration, state.cycleCount)
      { state with
        phase := nextPhase
        timeLeft := nextTimeLeft
        cycleCount := nextCycleCount
        isRunning :=
          decide (nextPhase = TimerPhase.ShortBreak) ||
          decide (nextPhase = TimerPhase.LongBreak)
        justFinished := true }
    else
      { state with timeLeft := newTimeLeft, justFinished := false }

/-- `startTimer` from `timerStore.ts`: starts or resumes the timer, advancing
the phase first when the timer is paused at (or below) zero. -/
def startTimer (state : TimerState) : TimerState :=
  if state.timeLeft ≤ 0 ∧ state.isRunning = false then
    let (nextPhase, nextTimeLeft, nextCycleCount) :=
      if state.phase = TimerPhase.Work then
        let c := state.cycleCount + 1
        if c ≥ state.longBreakInterval then
          (TimerPhase.LongBreak, state.longBreakDuration, (0 : Int))
        else
          (TimerPhase.ShortBreak, state.shortBreakDuration, c)
      else
        (TimerPhase.Work, state.workDuration, state.cycleCount)
    { state with
      phase := nextPhase
      timeLeft := nextTimeLeft
      cycleCount := nextCycleCount
      isRunning := true
      justFinished := false }
  else
    { state with isRunning := true, justFinished := false }

/-- `pauseTimer` from `timerStore.ts`. -/
def pauseTimer (state : TimerState) : TimerState :=
  { state with isRunning := false, justFinished := false }

/-- `resetTimer` from `timerStore.ts`: spreads `initialState` and then
restores the four configuration fields of the prior state. -/
def resetTimer (state : TimerState) : TimerState :=
  { initialState with
    workDuration := state.workDuration
    shortBreakDuration := state.shortBreakDuration
    longBreakDuration := state.longBreakDuration
    longBreakInterval := state.longBreakInterval
    justFinished := false }

/-- `setTimerState` from `timerStore.ts`: a follower overwrites its local
state with an inbound snapshot, forcing `justFinished` to false. -/
def setTimerState (newState : TimerState) : TimerState :=
  { newState with justFinished := false }

/-- Modelled from the spec: `setCycleInfo` is imported by `p2pStore.ts` from
`timerStore.ts` but its definition is absent from the provided sources.
Spec §4.1: "`setCycleInfo(cycleCount, longBreakInterval)`: overwrite both
fields directly; caller (replication layer) is responsible for validating
`longBreakInterval >= 1` and `0 <= cycleCount`." -/
def setCycleInfo (cycleCount longBreakInterval : Int) (state : TimerState) :
    TimerState :=
  { state with cycleCount := cycleCount, longBreakInterval := longBreakInterval }

/-- Modelled from the spec: `setTimeLeft` is imported by `p2pStore.ts` from
`timerStore.ts` but its definition is absent from the provided sources.
Spec §4.1: "`setTimeLeft(seconds)`: overwrite `timeLeftSeconds` directly;
caller validates `seconds >= 0`." -/
def setTimeLeft (seconds : Int) (state : TimerState) : TimerState :=
  { state with timeLeft := seconds }

/-! ## Operation sequences and reachability

The store operations exported by `timerStore.ts` (plus the two spec-modelled
ones), as they can be invoked on a process's store: the engine actions, and a
follower applying an inbound full snapshot via `setTimerState`. -/

/-- One invocation of a store operation. -/
inductive TimerOp
  | opTick
  | opStart
  | opPause
  | opReset
  | opSetCycleInfo (cycleCount longBreakInterval : Int)
  | opSetTimeLeft (seconds : Int)
  | opApplySnapshot (snap : TimerState)
deriving DecidableEq, Repr

/-- The effect of one operation on the store. -/
def applyOp (state : TimerState) : TimerOp → TimerState
  | TimerOp.opTick => tick state
  | TimerOp.opStart => startTimer state
  | TimerOp.opPause => pauseTimer state
  | TimerOp.opReset => resetTimer state
  | TimerOp.opSetCycleInfo c i => setCycleInfo c i state
  | TimerOp.opSetTimeLeft s => setTimeLeft s state
  | TimerOp.opApplySnapshot snap => setTimerState snap

/-- Run a sequence of operations from a state. -/
def runOps (state : TimerState) (ops : List TimerOp) : TimerState :=
  ops.foldl applyOp state

/-- A snapshot is reachable when some sequence of operations produces it from
the initial store value. -/
def Reachable (s : TimerState) : Prop :=
  ∃ ops : List TimerOp, runOps initialState ops = s

/-- The data-model constraints of spec §3 on a `TimerSnapshot`: positive
durations, `longBreakInterval ≥ 1`, `cycleCount ∈ [0, longBreakInterval)`
and non-negative time left. -/
def WellFormed (s : TimerState) : Prop :=
  0 ≤ s.cycleCount ∧ s.cycleCount < s.longBreakInterval ∧
  0 ≤ s.timeLeft ∧
  0 < s.workDuration ∧ 0 < s.shortBreakDuration ∧ 0 < s.longBreakDuration ∧
  1 ≤ s.longBreakInterval

instance (s : TimerState) : Decidable (WellFormed s) := by
  unfold WellFormed; infer_instance

/-- An operation is validated when its arguments satisfy the validation the
spec makes the caller responsible for, strengthened to keep `cycleCount`
inside `[0, longBreakInterval)`, and an applied snapshot satisfies the §3
data-model constraints. -/
def ValidOp : TimerOp → Prop
  | TimerOp.opSetCycleInfo c i => 0 ≤ c ∧ c < i
  | TimerOp.opSetTimeLeft s => 0 ≤ s
  | TimerOp.opApplySnapshot snap => WellFormed snap
  | _ => True

/-- Reachability by validated operations only. -/
def ValidReachable (s : TimerState) : Prop :=
  ∃ ops : List TimerOp,
    (∀ op ∈ ops, ValidOp op) ∧ runOps initialState ops = s

/-! ## Replication layer (`p2pStore.ts`)

Only the data-flow of the parts the claims are about is embedded: the
request-routing function `sendActionRequest` and the guest's
connection-loss handlers.  Channels are modelled by their `open` flag; the
host's timer-interval side effects are recorded as an explicit command. -/

/-- A data connection, by the only property the routing code reads. -/
structure DataConnection where
  connOpen : Bool
deriving DecidableEq, Repr

/-- The action-request messages of `p2pStore.ts` (`TimerActionRequest`). -/
inductive TimerActionRequest
  | REQUEST_START
  | REQUEST_PAUSE
  | REQUEST_RESET
  | REQUEST_SET_CYCLE_INFO (cycleCount longBreakInterval : Int)
  | REQUEST_SET_TIME_LEFT (timeLeft : Int)
deriving DecidableEq, Repr

/-- Host-side timer-interval commands issued by `sendActionRequest`
(`startHostInterval` / `stopHostInterval`). -/
inductive IntervalCmd
  | startInterval
  | stopInterval
deriving DecidableEq, Repr

/-- Everything one call to `sendActionRequest` does: the new local timer
state, the messages sent on the channel to the host, the interval command,
and the warning surfaced when delivery fails.  There is no queue: a request
either executes, is sent, or is dropped with a warning. -/
structure SendResult where
  timer : TimerState
  sent : List TimerActionRequest
  intervalCmd : Option IntervalCmd
  warning : Option String
deriving DecidableEq, Repr

/-- `sendActionRequest` from `p2pStore.ts`.  `connections` is
`Object.values(state.connections)` in order; a guest holds at most one
entry (to its host). -/
def sendActionRequest (isHost : Bool) (connections : List DataConnection)
    (timer : TimerState) (request : TimerActionRequest) : SendResult :=
  if isHost then
    -- Host executes directly and broadcasts via state subscription
    match request with
    | TimerActionRequest.REQUEST_START =>
        { timer := startTimer timer, sent := [],
          intervalCmd := some IntervalCmd.startInterval, warning := none }
    | TimerActionRequest.REQUEST_PAUSE =>
        { timer := pauseTimer timer, sent := [],
          intervalCmd := some IntervalCmd.stopInterval, warning := none }
    | TimerActionRequest.REQUEST_RESET =>
        { timer := resetTimer timer, sent := [],
          intervalCmd := some IntervalCmd.stopInterval, warning := none }
    | TimerActionRequest.REQUEST_SET_CYCLE_INFO c i =>
        { timer := setCycleInfo c i timer, sent := [],
          intervalCmd := none, warning := none }
    | TimerActionRequest.REQUEST_SET_TIME_LEFT t =>
        { timer := setTimeLeft t timer, sent := [],
          intervalCmd := none, warning := none }
  else
    -- Client sends request to host; client only has one connection (to host)
    match connections.head? with
    | some hostConnection =>
        if hostConnection.connOpen then
          { timer := timer, sent := [request],
            intervalCmd := none, warning := none }
        else
          { timer := timer, sent := [], intervalCmd := none,
            warning := some "Cannot send action request: No open connection to host." }
    | none =>
        { timer := timer, sent := [], intervalCmd := none,
          warning := some "Cannot send action request: No open connection to host." }

/-- The subset of `P2PState` from `p2pStore.ts` the embedded handlers touch. -/
structure P2PState where
  isConnecting : Bool
  isConnected : Bool
  error : Option String
  isHost : Bool
  connections : List DataConnection
deriving DecidableEq, Repr

/-- The guest's `conn.on("close")` handler inside `connectToHost`: clears the
connection bookkeeping, records the error and resets the local timer store. -/
def onHostConnClose (p : P2PState) (timer : TimerState) :
    P2PState × TimerState :=
  ({ p with
      isConnected := false
      isConnecting := false
      error := some "Connection to host closed."
      connections := [] },
   resetTimer timer)

/-- The guest's `conn.on("error")` handler inside `connectToHost`: clears the
connection bookkeeping, records the error message and resets the local
timer store. -/
def onHostConnError (p : P2PState) (errMessage : String)
    (timer : TimerState) : P2PState × TimerState :=
  ({ p with
      isConnecting := false
      isConnected := false
      error := some ("Connection error: " ++ errMessage)
      connections := [] },
   resetTimer timer)

/-! ## Helper lemmas about the engine operations -/

theorem mk_justFinished_eta (s : TimerState) (h : s.justFinished = false) :
    { s with justFinished := false } = s := by
  cases s
  simp_all

theorem tick_guard (s : TimerState) (h : s.isRunning = false ∨ s.timeLeft ≤ 0) :
    tick s = { s with justFinished := false } := by
  unfold tick
  rw [if_pos h]
  by_cases hj : s.justFinished = true
  · rw [if_pos hj]
  · rw [if_neg hj]
    simp only [Bool.not_eq_true] at hj
    exact (mk_justFinished_eta s hj).symm

theorem tick_complete_work_long (s : TimerState) (hr : s.isRunning = true)
    (ht : s.timeLeft = 1) (hp : s.phase = TimerPhase.Work)
    (hc : s.cycleCount + 1 ≥ s.longBreakInterval) :
    tick s =
      { s with
        phase := TimerPhase.LongBreak
        timeLeft := s.longBreakDuration
        cycleCount := 0
        isRunning := true
        justFinished := true } := by
  obtain ⟨p, t, r, w, sb, lb, i, c, j⟩ := s
  simp only at hr ht hp hc
  subst hr ht hp
  simp [tick, hc]

theorem tick_complete_work_short (s : TimerState) (hr : s.isRunning = true)
    (ht : s.timeLeft = 1) (hp : s.phase = TimerPhase.Work)
    (hc : s.cycleCount + 1 < s.longBreakInterval) :
    tick s =
      { s with
        phase := TimerPhase.ShortBreak
        timeLeft := s.shortBreakDuration
        cycleCount := s.cycleCount + 1
        isRunning := true
        justFinished := true } := by
  obtain ⟨p, t, r, w, sb, lb, i, c, j⟩ := s
  simp only at hr ht hp hc
  subst hr ht hp
  simp [tick, not_le.mpr hc]

theorem tick_complete_break (s : TimerState) (hr : s.isRunning = true)
    (ht : s.timeLeft = 1) (hp : s.phase ≠ TimerPhase.Work) :
    tick s =
      { s with
        phase := TimerPhase.Work
        timeLeft := s.workDuration
        isRunning := false
        justFinished := true } := by
  obtain ⟨p, t, r, w, sb, lb, i, c, j⟩ := s
  simp only at hr ht hp
  subst hr ht
  simp [tick, hp]

theorem tick_decrement (s : TimerState) (hr : s.isRunning = true)
    (ht : 1 < s.timeLeft) :
    tick s = { s with timeLeft := s.timeLeft - 1, justFinished := false } := by
  have h1 : ¬(s.isRunning = false ∨ s.timeLeft ≤ 0) := by
    simp [hr]
    omega
  have h2 : ¬(s.timeLeft - 1 ≤ 0) := by omega
  simp only [tick]
  rw [if_neg h1, if_neg h2]

theorem startTimer_advance (s : TimerState) (ht : s.timeLeft ≤ 0)
    (hr : s.isRunning = false) :
    startTimer s =
      { tick { s with isRunning := true, timeLeft := 1 } with
        isRunning := true
        justFinished := false } := by
  obtain ⟨p, t, r, w, sb, lb, i, c, j⟩ := s
  simp only at ht hr
  subst hr
  cases p
  case Work =>
    by_cases hc : c + 1 ≥ i
    · simp [startTimer, tick, hc, ht]
    · simp [startTimer, tick, hc, ht]
  case ShortBreak => simp [startTimer, tick, ht]
  case LongBreak => simp [startTimer, tick, ht]

theorem startTimer_resume (s : TimerState) (h : 0 < s.timeLeft ∨ s.isRunning = true) :
    startTimer s = { s with isRunning := true, justFinished := false } := by
  unfold startTimer
  rw [if_neg]
  rintro ⟨h1, h2⟩
  rcases h with h | h
  · omega
  · rw [h] at h2
    exact Bool.true_eq_false.mp h2

theorem startTimer_justFinished (s : TimerState) :
    (startTimer s).justFinished = false := by
  unfold startTimer
  split
  · rfl
  · rfl

theorem tick_complete_justFinished (s : TimerState) (hr : s.isRunning = true)
    (ht : s.timeLeft = 1) : (tick s).justFinished = true := by
  by_cases hp : s.phase = TimerPhase.Work
  · by_cases hc : s.cycleCount + 1 ≥ s.longBreakInterval
    · rw [tick_complete_work_long s hr ht hp hc]
    · rw [tick_complete_work_short s hr ht hp (not_le.mp hc)]
  · rw [tick_complete_break s hr ht hp]

theorem tick_justFinished (s : TimerState) :
    (tick s).justFinished = true ↔ (s.isRunning = true ∧ s.timeLeft = 1) := by
  constructor
  · intro h
    by_contra hn
    rcases Bool.eq_false_or_eq_true s.isRunning with hr | hr
    case inr =>
      rw [tick_guard s (Or.inl hr)] at h
      simp at h
    case inl =>
      by_cases ht0 : s.timeLeft ≤ 0
      · rw [tick_guard s (Or.inr ht0)] at h
        simp at h
      · by_cases ht1 : s.timeLeft = 1
        · exact hn ⟨hr, ht1⟩
        · rw [tick_decrement s hr (by omega)] at h
          simp at h
  · rintro ⟨hr, ht⟩
    exact tick_complete_justFinished s hr ht

theorem wf_tick {s : TimerState} (h : WellFormed s) : WellFormed (tick s) := by
  obtain ⟨h1, h2, h3, h4, h5, h6, h7⟩ := h
  rcases Bool.eq_false_or_eq_true s.isRunning with hr | hr
  case inr =>
    rw [tick_guard s (Or.inl hr)]
    exact ⟨h1, h2, h3, h4, h5, h6, h7⟩
  case inl =>
    by_cases ht0 : s.timeLeft ≤ 0
    · rw [tick_guard s (Or.inr ht0)]
      exact ⟨h1, h2, h3, h4, h5, h6, h7⟩
    · by_cases ht1 : s.timeLeft = 1
      · by_cases hp : s.phase = TimerPhase.Work
        · by_cases hc : s.cycleCount + 1 ≥ s.longBreakInterval
          · rw [tick_complete_work_long s hr ht1 hp hc]
            unfold WellFormed
            dsimp only
            omega
          · rw [tick_complete_work_short s hr ht1 hp (not_le.mp hc)]
            unfold WellFormed
            dsimp only
            omega
        · rw [tick_complete_break s hr ht1 hp]
          unfold WellFormed
          dsimp only
          omega
      · rw [tick_decrement s hr (by omega)]
        unfold WellFormed
        dsimp only
        omega

theorem wf_startTimer {s : TimerState} (h : WellFormed s) :
    WellFormed (startTimer s) := by
  obtain ⟨h1, h2, h3, h4, h5, h6, h7⟩ := h
  by_cases hg : s.timeLeft ≤ 0 ∧ s.isRunning = false
  · rw [startTimer_advance s hg.1 hg.2]
    have := wf_tick (s := { s with isRunning := true, timeLeft := 1 })
      ⟨h1, h2, show (0 : Int) ≤ 1 by norm_num, h4, h5, h6, h7⟩
    obtain ⟨g1, g2, g3, g4, g5, g6, g7⟩ := this
    exact ⟨g1, g2, g3, g4, g5, g6, g7⟩
  · have hresume : 0 < s.timeLeft ∨ s.isRunning = true := by
      rcases Bool.eq_false_or_eq_true s.isRunning with hr | hr
      case inr =>
        left
        by_contra hx
        exact hg ⟨by omega, hr⟩
      case inl =>
        right
        exact hr
    rw [startTimer_resume s hresume]
    exact ⟨h1, h2, h3, h4, h5, h6, h7⟩

theorem wf_pauseTimer {s : TimerState} (h : WellFormed s) :
    WellFormed (pauseTimer s) := h

theorem wf_resetTimer {s : TimerState} (h : WellFormed s) :
    WellFormed (resetTimer s) := by
  obtain ⟨h1, h2, h3, h4, h5, h6, h7⟩ := h
  unfold WellFormed resetTimer initialState
  dsimp only
  refine ⟨le_refl 0, by omega, by norm_num [DEFAULT_WORK_DURATION], h4, h5, h6, h7⟩

theorem wf_setTimerState {snap : TimerState} (h : WellFormed snap) :
    WellFormed (setTimerState snap) := h

theorem wf_setCycleInfo {s : TimerState} (h : WellFormed s) {c i : Int}
    (hc : 0 ≤ c) (hi : c < i) : WellFormed (setCycleInfo c i s) := by
  obtain ⟨h1, h2, h3, h4, h5, h6, h7⟩ := h
  exact ⟨hc, hi, h3, h4, h5, h6, show (1 : Int) ≤ i by omega⟩

theorem wf_setTimeLeft {s : TimerState} (h : WellFormed s) {t : Int}
    (ht : 0 ≤ t) : WellFormed (setTimeLeft t s) := by
  obtain ⟨h1, h2, h3, h4, h5, h6, h7⟩ := h
  exact ⟨h1, h2, ht, h4, h5, h6, h7⟩

theorem wf_applyOp {s : TimerState} {op : TimerOp} (hs : WellFormed s)
    (hop : ValidOp op) : WellFormed (applyOp s op) := by
  cases op with
  | opTick => exact wf_tick hs
  | opStart => exact wf_startTimer hs
  | opPause => exact wf_pauseTimer hs
  | opReset => exact wf_resetTimer hs
  | opSetCycleInfo c i => exact wf_setCycleInfo hs hop.1 hop.2
  | opSetTimeLeft t => exact wf_setTimeLeft hs hop
  | opApplySnapshot snap => exact wf_setTimerState hop

theorem wf_runOps (ops : List TimerOp) (s : TimerState) (hs : WellFormed s)
    (hval : ∀ op ∈ ops, ValidOp op) : WellFormed (runOps s ops) := by
  induction ops generalizing s with
  | nil => exact hs
  | cons op rest ih =>
      exact ih (applyOp s op) (wf_applyOp hs (hval op (by simp)))
        (fun o ho => hval o (by simp [ho]))

theorem wf_initialState : WellFormed initialState := by decide

/-! ## Claim theorems -/

/-- C1, claim as stated, refuted: it is not true that every snapshot reachable
from the initial state by arbitrary sequences of tick, start, pause, reset,
setCycleInfo, setTimeLeft and follower snapshot application satisfies
`0 ≤ cycleCount < longBreakInterval` and `timeLeftSeconds ≥ 0`: `setCycleInfo`
overwrites both fields without any validation, so `setCycleInfo 10 4` from the
initial state yields `cycleCount = 10 ≥ 4 = longBreakInterval`. -/
theorem C1_counterexample :
    ¬ (∀ s : TimerState, Reachable s →
        0 ≤ s.cycleCount ∧ s.cycleCount < s.longBreakInterval ∧ 0 ≤ s.timeLeft) :=
  fun h =>
    absurd
      (h (runOps initialState [TimerOp.opSetCycleInfo 10 4])
        ⟨[TimerOp.opSetCycleInfo 10 4], rfl⟩)
      (by decide)

/-- C1, amended: every snapshot reachable from the initial state by sequences
of tick, start, pause, reset, validated setCycleInfo
(`0 ≤ cycleCount < longBreakInterval`), validated setTimeLeft (`seconds ≥ 0`)
and application of follower snapshots satisfying the data-model constraints
satisfies `0 ≤ cycleCount < longBreakInterval` and `timeLeftSeconds ≥ 0`. -/
theorem C1_thm (s : TimerState) (h : ValidReachable s) :
    0 ≤ s.cycleCount ∧ s.cycleCount < s.longBreakInterval ∧ 0 ≤ s.timeLeft := by
  obtain ⟨ops, hval, hrun⟩ := h
  have hw := wf_runOps ops initialState wf_initialState hval
  rw [hrun] at hw
  exact ⟨hw.1, hw.2.1, hw.2.2.1⟩

/-- C1 witness: the invariant holds at the initial state itself, reachable by
the empty operation sequence. -/
theorem C1_witness :
    0 ≤ initialState.cycleCount ∧
    initialState.cycleCount < initialState.longBreakInterval ∧
    0 ≤ initialState.timeLeft :=
  C1_thm initialState ⟨[], fun op h => absurd h (List.not_mem_nil op), rfl⟩

/-- C2: when tick brings the time to 0 in the Work phase, the cycle count is
incremented first; at or above the long-break threshold the next phase is
LongBreak with `timeLeft = longBreakDuration` and `cycleCount = 0`, below it
ShortBreak with `timeLeft = shortBreakDuration`; a completing break returns to
Work with `timeLeft = workDuration` and `cycleCount` unchanged; in particular
`cycleCount = 3`, `longBreakInterval = 4` gives LongBreak with count 0. -/
theorem C2_thm (s : TimerState) (hr : s.isRunning = true) (ht : s.timeLeft = 1) :
    (s.phase = TimerPhase.Work →
      (s.cycleCount + 1 ≥ s.longBreakInterval →
        tick s =
          { s with
            phase := TimerPhase.LongBreak
            timeLeft := s.longBreakDuration
            cycleCount := 0
            isRunning := true
            justFinished := true }) ∧
      (s.cycleCount + 1 < s.longBreakInterval →
        tick s =
          { s with
            phase := TimerPhase.ShortBreak
            timeLeft := s.shortBreakDuration
            cycleCount := s.cycleCount + 1
            isRunning := true
            justFinished := true })) ∧
    ((s.phase = TimerPhase.ShortBreak ∨ s.phase = TimerPhase.LongBreak) →
      tick s =
        { s with
          phase := TimerPhase.Work
          timeLeft := s.workDuration
          cycleCount := s.cycleCount
          isRunning := false
          justFinished := true }) ∧
    (s.phase = TimerPhase.Work → s.cycleCount = 3 → s.longBreakInterval = 4 →
      (tick s).phase = TimerPhase.LongBreak ∧ (tick s).cycleCount = 0) := by
  refine ⟨fun hp => ⟨fun hc => tick_complete_work_long s hr ht hp hc,
    fun hc => tick_complete_work_short s hr ht hp hc⟩, fun hp => ?_,
    fun hp hc hi => ?_⟩
  · have hne : s.phase ≠ TimerPhase.Work := by
      rcases hp with h | h
      · rw [h]
        exact fun hx => TimerPhase.noConfusion hx
      · rw [h]
        exact fun hx => TimerPhase.noConfusion hx
    rw [tick_complete_break s hr ht hne]
  · have h4 : s.cycleCount + 1 ≥ s.longBreakInterval := by omega
    rw [tick_complete_work_long s hr ht hp h4]
    exact ⟨rfl, rfl⟩

/-- C2 witness: a running Work phase at one second left with `cycleCount = 3`
and `longBreakInterval = 4` transitions to LongBreak with the count reset. -/
theorem C2_witness :
    (tick { initialState with isRunning := true, timeLeft := 1, cycleCount := 3 }).phase =
      TimerPhase.LongBreak ∧
    (tick { initialState with isRunning := true, timeLeft := 1, cycleCount := 3 }).cycleCount = 0 :=
  (C2_thm { initialState with isRunning := true, timeLeft := 1, cycleCount := 3 }
    rfl rfl).2.2 rfl rfl rfl

/-- C3: at every natural phase completion the emitted snapshot's `isRunning`
follows the auto-start policy: true exactly when the new phase is a break,
false exactly when the new phase is Work. -/
theorem C3_thm (s : TimerState) (hr : s.isRunning = true) (ht : s.timeLeft = 1) :
    ((tick s).isRunning = true ↔
      ((tick s).phase = TimerPhase.ShortBreak ∨ (tick s).phase = TimerPhase.LongBreak)) ∧
    ((tick s).isRunning = false ↔ (tick s).phase = TimerPhase.Work) := by
  by_cases hp : s.phase = TimerPhase.Work
  · by_cases hc : s.cycleCount + 1 ≥ s.longBreakInterval
    · rw [tick_complete_work_long s hr ht hp hc]
      simp
    · rw [tick_complete_work_short s hr ht hp (not_le.mp hc)]
      simp
  · rw [tick_complete_break s hr ht hp]
    simp

/-- C3 witness: a fresh Work phase completing auto-starts the break. -/
theorem C3_witness :
    ((tick { initialState with isRunning := true, timeLeft := 1 }).isRunning = true ↔
      ((tick { initialState with isRunning := true, timeLeft := 1 }).phase = TimerPhase.ShortBreak ∨
       (tick { initialState with isRunning := true, timeLeft := 1 }).phase = TimerPhase.LongBreak)) ∧
    ((tick { initialState with isRunning := true, timeLeft := 1 }).isRunning = false ↔
      (tick { initialState with isRunning := true, timeLeft := 1 }).phase = TimerPhase.Work) :=
  C3_thm { initialState with isRunning := true, timeLeft := 1 } rfl rfl

/-- C4: `justFinished` is true in a tick result exactly when that tick made the
time reach 0 (running with one second left); every other engine operation
(start, pause, reset) emits it false, and a follower applying an inbound full
snapshot always stores it as false regardless of the inbound value. -/
theorem C4_thm (s snap : TimerState) :
    ((tick s).justFinished = true ↔ (s.isRunning = true ∧ s.timeLeft = 1)) ∧
    (startTimer s).justFinished = false ∧
    (pauseTimer s).justFinished = false ∧
    (resetTimer s).justFinished = false ∧
    (setTimerState snap).justFinished = false :=
  ⟨tick_justFinished s, startTimer_justFinished s, rfl, rfl, rfl⟩

/-- C5, claim as stated, refuted: reset does not set the remaining time to the
preserved `workDuration` — it spreads `initialState`, so the remaining time is
the default work duration (1500).  On a prior state whose `workDuration` is
600, reset yields `timeLeft = 1500 ≠ 600`. -/
theorem C5_counterexample :
    ¬ (∀ s : TimerState,
        resetTimer s =
          { phase := TimerPhase.Work
            timeLeft := s.workDuration
            isRunning := false
            workDuration := s.workDuration
            shortBreakDuration := s.shortBreakDuration
            longBreakDuration := s.longBreakDuration
            longBreakInterval := s.longBreakInterval
            cycleCount := 0
            justFinished := false }) :=
  fun h => absurd (h { initialState with workDuration := 600 }) (by decide)

/-- C5, amended: for every prior state, reset yields Work phase,
`timeLeft = DEFAULT_WORK_DURATION` (1500, the default — not the preserved
`workDuration`), `cycleCount = 0`, `isRunning = false`, `justFinished = false`,
while the four configured values keep their prior values. -/
theorem C5_thm (s : TimerState) :
    resetTimer s =
      { phase := TimerPhase.Work
        timeLeft := DEFAULT_WORK_DURATION
        isRunning := false
        workDuration := s.workDuration
        shortBreakDuration := s.shortBreakDuration
        longBreakDuration := s.longBreakDuration
        longBreakInterval := s.longBreakInterval
        cycleCount := 0
        justFinished := false } := rfl

/-- C6: start from a paused state whose time has fully elapsed first performs
exactly the phase advance a completing tick would perform and then sets
`isRunning = true`; from any other state it only sets `isRunning = true`; in
all cases it leaves `justFinished` false. -/
theorem C6_thm (s : TimerState) :
    (s.timeLeft ≤ 0 → s.isRunning = false →
      startTimer s =
        { tick { s with isRunning := true, timeLeft := 1 } with
          isRunning := true
          justFinished := false }) ∧
    (0 < s.timeLeft ∨ s.isRunning = true →
      startTimer s = { s with isRunning := true, justFinished := false }) ∧
    (startTimer s).justFinished = false :=
  ⟨fun ht hr => startTimer_advance s ht hr,
   fun h => startTimer_resume s h,
   startTimer_justFinished s⟩

/-- C6 witness: starting the initial state paused at 0 advances the phase as a
completing tick would, and starting the fresh initial state only resumes. -/
theorem C6_witness :
    startTimer { initialState with timeLeft := 0 } =
      { tick { initialState with isRunning := true, timeLeft := 1 } with
        isRunning := true
        justFinished := false } ∧
    startTimer initialState = { initialState with isRunning := true, justFinished := false } :=
  ⟨(C6_thm { initialState with timeLeft := 0 }).1 (by decide) rfl,
   (C6_thm initialState).2.1 (Or.inl (by decide))⟩

/-- C7, claim as stated, refuted: tick on a non-running state is not always a
field-for-field no-op — when `justFinished` is set it is cleared.  The state
produced when a break completes (Work phase, not running, `justFinished`
true) is changed by the next tick. -/
theorem C7_counterexample :
    ¬ (∀ s : TimerState, s.isRunning = false → tick s = s) :=
  fun h => absurd (h { initialState with justFinished := true } rfl) (by decide)

/-- C7, amended: for every state with `isRunning = false`, tick leaves every
field unchanged except `justFinished`, which it forces to false; it is a
strict no-op exactly when `justFinished` is already false. -/
theorem C7_thm (s : TimerState) (h : s.isRunning = false) :
    tick s = { s with justFinished := false } :=
  tick_guard s (Or.inl h)

/-- C7 witness: ticking the paused initial state with the one-shot flag set
only clears the flag. -/
theorem C7_witness :
    tick { initialState with justFinished := true } = initialState :=
  C7_thm { initialState with justFinished := true } rfl

/-- C8: a guest (not host) whose single channel to the host is missing or not
open drops the intent: the local timer state is unchanged, no message is sent,
nothing is queued, and the failure is surfaced synchronously as "no open
connection to host". -/
theorem C8_thm (connections : List DataConnection) (timer : TimerState)
    (request : TimerActionRequest)
    (h : ∀ conn ∈ connections.head?, conn.connOpen = false) :
    sendActionRequest false connections timer request =
      { timer := timer
        sent := []
        intervalCmd := none
        warning := some "Cannot send action request: No open connection to host." } := by
  cases connections with
  | nil => rfl
  | cons conn rest =>
      have hc : conn.connOpen = false := h conn (by simp)
      simp [sendActionRequest, hc]

/-- C8 witness: a guest holding one closed channel has its REQUEST_START
dropped with the synchronous warning and an unchanged timer. -/
theorem C8_witness :
    sendActionRequest false [{ connOpen := false }] initialState
        TimerActionRequest.REQUEST_START =
      { timer := initialState
        sent := []
        intervalCmd := none
        warning := some "Cannot send action request: No open connection to host." } :=
  C8_thm [{ connOpen := false }] initialState TimerActionRequest.REQUEST_START
    (by simp)

/-- C9, claim as stated, refuted: on disconnection the guest's snapshot is
replaced by the reset snapshot, whose remaining time is the default work
duration (1500), not the held snapshot's `workDuration`: a guest holding a
snapshot with `workDuration = 600` ends with `timeLeft = 1500 ≠ 600`. -/
theorem C9_counterexample :
    ¬ (∀ (p : P2PState) (timer : TimerState),
        (onHostConnClose p timer).2.phase = TimerPhase.Work ∧
        (onHostConnClose p timer).2.timeLeft = timer.workDuration ∧
        (onHostConnClose p timer).2.cycleCount = 0 ∧
        (onHostConnClose p timer).2.isRunning = false) :=
  fun h =>
    absurd
      (h
        { isConnecting := false
          isConnected := true
          error := none
          isHost := false
          connections := [{ connOpen := true }] }
        { initialState with workDuration := 600 })
      (by decide)

/-- C9, amended: when the guest's single connection to the host closes or
errors, the guest's local snapshot is replaced by the idle reset snapshot —
Work phase, `timeLeft = DEFAULT_WORK_DURATION` (the default 1500, not the
held snapshot's `workDuration`), `cycleCount = 0`, `isRunning = false` — for
every snapshot the guest may hold at disconnection time. -/
theorem C9_thm (p : P2PState) (errMessage : String) (timer : TimerState) :
    (onHostConnClose p timer).2 = resetTimer timer ∧
    (onHostConnError p errMessage timer).2 = resetTimer timer ∧
    (onHostConnClose p timer).2.phase = TimerPhase.Work ∧
    (onHostConnClose p timer).2.timeLeft = DEFAULT_WORK_DURATION ∧
    (onHostConnClose p timer).2.cycleCount = 0 ∧
    (onHostConnClose p timer).2.isRunning = false ∧
    (onHostConnError p errMessage timer).2.phase = TimerPhase.Work ∧
    (onHostConnError p errMessage timer).2.timeLeft = DEFAULT_WORK_DURATION ∧
    (onHostConnError p errMessage timer).2.cycleCount = 0 ∧
    (onHostConnError p errMessage timer).2.isRunning = false :=
  ⟨rfl, rfl, rfl, rfl, rfl, rfl, rfl, rfl, rfl, rfl⟩

/-- C10, claim as stated, refuted: the universally quantified consequence
"tick never produces a negative time" fails for states whose configured
durations are negative (the code never validates them): a running Work phase
at one second left with `shortBreakDuration = -5` ticks to `timeLeft = -5`. -/
theorem C10_counterexample :
    ¬ (∀ s : TimerState, 0 ≤ s.timeLeft → 0 ≤ (tick s).timeLeft) :=
  fun h =>
    absurd
      (h { initialState with isRunning := true, timeLeft := 1, shortBreakDuration := -5 }
        (by decide))
      (by decide)

/-- C10, amended: a running state at or below 0 is left unchanged by tick in
`timeLeft`, `phase`, `cycleCount` and `isRunning`; and for every state with
non-negative time and non-negative configured durations, the time after tick
is still non-negative. -/
theorem C10_thm (s : TimerState) :
    (s.isRunning = true → s.timeLeft ≤ 0 →
      (tick s).timeLeft = s.timeLeft ∧ (tick s).phase = s.phase ∧
      (tick s).cycleCount = s.cycleCount ∧ (tick s).isRunning = s.isRunning) ∧
    (0 ≤ s.timeLeft → 0 ≤ s.workDuration → 0 ≤ s.shortBreakDuration →
      0 ≤ s.longBreakDuration → 0 ≤ (tick s).timeLeft) := by
  constructor
  · intro hr ht
    rw [tick_guard s (Or.inr ht)]
    exact ⟨rfl, rfl, rfl, rfl⟩
  · intro h0 hw hsb hlb
    rcases Bool.eq_false_or_eq_true s.isRunning with hr | hr
    case inr =>
      rw [tick_guard s (Or.inl hr)]
      exact h0
    case inl =>
      by_cases ht0 : s.timeLeft ≤ 0
      · rw [tick_guard s (Or.inr ht0)]
        exact h0
      · by_cases ht1 : s.timeLeft = 1
        · by_cases hp : s.phase = TimerPhase.Work
          · by_cases hc : s.cycleCount + 1 ≥ s.longBreakInterval
            · rw [tick_complete_work_long s hr ht1 hp hc]
              exact hlb
            · rw [tick_complete_work_short s hr ht1 hp (not_le.mp hc)]
              exact hsb
          · rw [tick_complete_break s hr ht1 hp]
            exact hw
        · rw [tick_decrement s hr (by omega)]
          show 0 ≤ s.timeLeft - 1
          omega

/-- C10 witness: a running state already at 0 keeps all four fields, and its
time stays non-negative. -/
theorem C10_witness :
    (tick { initialState with isRunning := true, timeLeft := 0 }).timeLeft = 0 ∧
    0 ≤ (tick { initialState with isRunning := true, timeLeft := 0 }).timeLeft :=
  ⟨((C10_thm { initialState with isRunning := true, timeLeft := 0 }).1 rfl (by decide)).1,
   (C10_thm { initialState with isRunning := true, timeLeft := 0 }).2 (by decide)
     (by decide) (by decide) (by decide)⟩

end Pomo
